import Mathlib

/-!
Verification development for the `jv` Java version switcher.

The Go sources are shallowly embedded: Go strings are byte lists
(`List Nat`; every string the modelled code manipulates is ASCII),
pure Go functions become Lean functions, and effectful pipelines become
functions over an explicit environment record that injects the outcome of
each collaborator call (file system, network, registry), returning the
result together with a trace of the effects performed.
-/

set_option maxHeartbeats 1000000

namespace JV

/-- Go strings are byte slices; everything the modelled code handles is
ASCII, so a Go string is embedded as its list of byte values. -/
abbrev GoStr := List Nat

/-- Byte list of an ASCII Lean string literal. -/
def strB (x : String) : GoStr := x.toList.map Char.toNat

/-! ### Go `strings` and `filepath` primitives used by the sources -/

/-- `strings.ToLower` on an ASCII byte. -/
def lowB (c : Nat) : Nat := if 65 ≤ c ∧ c ≤ 90 then c + 32 else c

/-- `strings.ToUpper` on an ASCII byte. -/
def upB (c : Nat) : Nat := if 97 ≤ c ∧ c ≤ 122 then c - 32 else c

/-- `strings.ToLower` (ASCII fragment). -/
def lowStr (l : GoStr) : GoStr := l.map lowB

/-- `strings.ToUpper` (ASCII fragment). -/
def upStr (l : GoStr) : GoStr := l.map upB

/-- `strings.EqualFold` (ASCII fragment: case-insensitive equality). -/
def eqFold (a b : GoStr) : Bool := decide (lowStr a = lowStr b)

/-- `strings.Contains s sub`: `sub` occurs as a contiguous substring of `s`. -/
def strContains (s sub : GoStr) : Bool :=
  match s with
  | [] => sub.isEmpty
  | c :: t => sub.isPrefixOf (c :: t) || strContains t sub

/-- The ASCII white-space bytes trimmed by `strings.TrimSpace`
(`\t`, `\n`, `\v`, `\f`, `\r`, space). -/
def isSpaceB (c : Nat) : Bool := c = 9 || c = 10 || c = 11 || c = 12 || c = 13 || c = 32

/-- `strings.TrimSpace` (ASCII fragment): drop white space from both ends. -/
def trimSpace (l : GoStr) : GoStr :=
  ((l.dropWhile isSpaceB).reverse.dropWhile isSpaceB).reverse

/-- `strings.Split(s, ";")`; the separator is the single byte 59. -/
def splitSemi : GoStr → List GoStr
  | [] => [[]]
  | c :: rest =>
    if c = 59 then [] :: splitSemi rest
    else
      match splitSemi rest with
      | [] => [[c]]
      | h :: t => (c :: h) :: t

/-- `strings.Join(l, ";")`. -/
def joinSemi : List GoStr → GoStr
  | [] => []
  | [x] => x
  | x :: y :: t => x ++ 59 :: joinSemi (y :: t)

/-- Windows `os.IsPathSeparator`: backslash (92) or slash (47). -/
def isSlashB (c : Nat) : Bool := c = 92 || c = 47

/-- `filepath.FromSlash` on Windows: replace `/` by `\`. -/
def fromSlash (l : GoStr) : GoStr := l.map (fun c => if c = 47 then 92 else c)

/-- Length of the leading run of non-separator bytes. -/
def runNS (l : GoStr) : Nat := (l.takeWhile (fun c => !(isSlashB c))).length

/-- `filepath.volumeNameLen` on Windows: drive-letter volumes (`C:`) and
UNC shares (`\\host\share`).  NT device and extended-length prefixes
(`\\.\`, `\\?\`) never occur in the modelled inputs and are out of scope. -/
def volumeNameLen (p : GoStr) : Nat :=
  match p with
  | c :: d :: rest =>
    if d = 58 then 2
    else if isSlashB c ∧ isSlashB d then
      match rest with
      | [] => 0
      | e :: _ =>
        if isSlashB e ∨ e = 46 then 0
        else
          -- the first separator after the host part sits at index 2 + runNS rest
          let h := runNS rest
          if 2 + h + 1 < p.length then
            match p.drop (2 + h + 1) with
            | [] => 0
            | f :: after =>
              if isSlashB f ∨ f = 46 then 0
              else 2 + h + 1 + runNS (f :: after)
          else 0
    else 0
  | _ => 0

/-- Split on path separators (used by the `filepath.Clean` embedding). -/
def slashSplit : GoStr → List GoStr
  | [] => [[]]
  | c :: t =>
    if isSlashB c then [] :: slashSplit t
    else
      match slashSplit t with
      | [] => [[c]]
      | h :: tl => (c :: h) :: tl

/-- Non-empty path components of a separator-separated string. -/
def slashComps (l : GoStr) : List GoStr := (slashSplit l).filter (fun x => !(x.isEmpty))

/-- `filepath.Clean`'s component processing (the `lazybuf` loop): `.` is
dropped, `..` pops the last component when one is poppable, is dropped at
the root, and accumulates otherwise.  The accumulator is kept reversed. -/
def cleanStack (rooted : Bool) : List GoStr → List GoStr → List GoStr
  | acc, [] => acc
  | acc, c :: t =>
    if c = [46] then cleanStack rooted acc t
    else if c = [46, 46] then
      match acc with
      | [] => cleanStack rooted (if rooted then [] else [[46, 46]]) t
      | a :: r =>
        if a = [46, 46] then cleanStack rooted ([46, 46] :: a :: r) t
        else cleanStack rooted r t
    else cleanStack rooted (c :: acc) t

/-- Join components with `\`. -/
def joinBS : List GoStr → GoStr
  | [] => []
  | [x] => x
  | x :: y :: t => x ++ 92 :: joinBS (y :: t)

/-- `filepath.Clean` on Windows (volume prefix, `.`/`..`/separator
normalisation, final `FromSlash`). -/
def filepathClean (path : GoStr) : GoStr :=
  let volLen := volumeNameLen path
  let rest := path.drop volLen
  if rest.isEmpty then
    if volLen > 1 ∧ isSlashB (path.headD 0) ∧ isSlashB ((path.drop 1).headD 0) then
      fromSlash path
    else path ++ [46]
  else
    let rooted := isSlashB (rest.headD 0)
    let comps := (cleanStack rooted [] (slashComps rest)).reverse
    let vol := path.take volLen
    if comps.isEmpty then
      if rooted then fromSlash (vol ++ [92]) else fromSlash (vol ++ [46])
    else
      if rooted then fromSlash (vol ++ 92 :: joinBS comps)
      else fromSlash (vol ++ joinBS comps)

/-- `filepath.Join(a, b)` on Windows: drop empty elements, avoid doubling a
separator after a bare drive volume, then `Clean`.  (The historic UNC
special case of `joinNonEmpty` is out of the modelled scope.) -/
def filepathJoin (a b : GoStr) : GoStr :=
  if a.isEmpty then (if b.isEmpty then [] else filepathClean b)
  else if a.length = 2 ∧ a.getD 1 0 = 58 then filepathClean (a ++ b)
  else filepathClean (a ++ 92 :: b)

/-! ### `internal/env/windows.go`: the PATH rewrite -/

/-- The literal `"%JAVA_HOME%\bin"` prepended by `updatePath`. -/
def jhbStr : GoStr := strB ("%JAVA_HOME%\\bin")

/-- The literal `"%JAVA_HOME%"` matched (after `ToUpper`) by `updatePath`. -/
def ujhStr : GoStr := strB ("%JAVA_HOME%")

/-- The literal `"bin"`. -/
def binStr : GoStr := strB ("bin")

/-- One iteration of `updatePath`'s segment loop: trim the segment, drop
it when blank, when (for non-empty `oldJavaHome`) it is case-insensitively
equal to `oldJavaHome\bin` or to `%JAVA_HOME%\bin` or contains
`oldJavaHome` case-insensitively, or when it contains `%JAVA_HOME%` in any
casing; keep it (trimmed) otherwise. -/
def segStep (oldJavaHome : GoStr) (p0 : GoStr) : Option GoStr :=
  let p := trimSpace p0
  if p = [] then none
  else if oldJavaHome ≠ [] ∧
      (eqFold p (filepathJoin oldJavaHome binStr) = true ∨ eqFold p jhbStr = true) then none
  else if oldJavaHome ≠ [] ∧ strContains (lowStr p) (lowStr oldJavaHome) = true then none
  else if strContains (upStr p) ujhStr = true then none
  else some p

/-- `updatePath` from `internal/env/windows.go`: split PATH on `;`, run
the segment loop (`segStep`), then prepend `%JAVA_HOME%\bin` and re-join.
`newJavaHome` is accepted but (as in the source) not used by the rewrite. -/
def updatePath (currentPath oldJavaHome newJavaHome : GoStr) : GoStr :=
  joinSemi (jhbStr :: (splitSemi currentPath).filterMap (segStep oldJavaHome))

/-- The per-segment keep decision of `updatePath`, on an already-trimmed
segment (used to restate the rewrite as a filter). -/
def keepSeg (o q : GoStr) : Bool :=
  if q = [] then false
  else if o ≠ [] ∧ (eqFold q (filepathJoin o binStr) = true ∨ eqFold q jhbStr = true) then false
  else if o ≠ [] ∧ strContains (lowStr q) (lowStr o) = true then false
  else if strContains (upStr q) ujhStr = true then false
  else true

/-- The list of segments `updatePath` keeps (trimmed, in input order). -/
def keptSegs (o L : GoStr) : List GoStr :=
  ((splitSemi L).map trimSpace).filter (keepSeg o)

/-- Number of segments of a PATH string referencing `%JAVA_HOME%`
(in any casing), the count the idempotence invariant speaks about. -/
def countRefs (s : GoStr) : Nat :=
  ((splitSemi s).filter (fun q => strContains (upStr q) ujhStr)).length

/-! ### Shared formatting helpers (`fmt`, `strconv`, `encoding/hex`) -/

/-- Decimal digits of a natural number, as bytes (`fmt` `%d`, nonnegative). -/
def natStr (n : Nat) : GoStr := (Nat.toDigits 10 n).map Char.toNat

/-- `fmt` `%d` on an integer. -/
def intStr (i : Int) : GoStr := if i < 0 then 45 :: natStr i.natAbs else natStr i.natAbs

/-- Lower-case hex digit of a nibble (`encoding/hex` alphabet). -/
def hexDigit (n : Nat) : Nat := if n < 10 then 48 + n else 87 + n

/-- `hex.EncodeToString`: two lower-case hex digits per byte. -/
def hexEncode (bs : List Nat) : GoStr :=
  bs.foldr (fun b acc => hexDigit (b / 16) :: hexDigit (b % 16) :: acc) []

/-- `Except` success test. -/
def exOk {α β : Type} : Except α β → Bool
  | Except.ok _ => true
  | Except.error _ => false

/-! ### `DownloadFile` (download transport, unnamed installer source) -/

/-- Collaborator outcomes for one `DownloadFile` run.  `preFile` is the
destination file's contents before the run (`none` = absent); `bodyBytes`
are the bytes the response body delivered before EOF or error;
`contentLength` is `resp.ContentLength` (may be `-1` when unknown). -/
structure DownloadEnv where
  preFile : Option (List Nat)
  createErr : Option GoStr
  getErr : Option GoStr
  statusCode : Int
  contentLength : Int
  bodyBytes : List Nat
  copyErr : Option GoStr

/-- Externally visible effects of `DownloadFile`, in order. -/
inductive DlEv where
  | create | httpGet
  deriving DecidableEq

/-- Result of a `DownloadFile` run: returned error (`none` = success),
destination file contents afterwards, and the effect trace. -/
structure DlOut where
  res : Option GoStr
  dest : Option (List Nat)
  trace : List DlEv

/-- `DownloadFile` from the unnamed installer source: `os.Create` the
destination (creating it empty, or truncating an existing file — not an
exclusive create), then `http.Get`, check the status, stream the body into
the file, and finally compare bytes written with `resp.ContentLength`.
The progress UI (bubbletea program, sleeps) has no effect on the result
and is elided. -/
def DownloadFile (e : DownloadEnv) : DlOut :=
  match e.createErr with
  | some err =>
    { res := some (strB ("failed to create file: ") ++ err)
      dest := e.preFile, trace := [DlEv.create] }
  | none =>
    -- os.Create succeeded: the destination now exists and is empty
    match e.getErr with
    | some err =>
      { res := some (strB ("failed to download: ") ++ err)
        dest := some [], trace := [DlEv.create, DlEv.httpGet] }
    | none =>
      if e.statusCode ≠ 200 then
        { res := some (strB ("download failed with status: ") ++ intStr e.statusCode)
          dest := some [], trace := [DlEv.create, DlEv.httpGet] }
      else
        match e.copyErr with
        | some err =>
          { res := some (strB ("failed to write file: ") ++ err)
            dest := some e.bodyBytes, trace := [DlEv.create, DlEv.httpGet] }
        | none =>
          if (e.bodyBytes.length : Int) ≠ e.contentLength then
            { res := some (strB ("incomplete download: got ") ++ intStr (e.bodyBytes.length)
                ++ strB (" bytes, expected ") ++ intStr e.contentLength)
              dest := some e.bodyBytes, trace := [DlEv.create, DlEv.httpGet] }
          else
            { res := none, dest := some e.bodyBytes, trace := [DlEv.create, DlEv.httpGet] }

/-! ### `VerifyChecksum` and `InstallJDK` (unnamed installer source) -/

/-- Collaborator outcomes for one `VerifyChecksum` run: `os.Open` failure,
the file's bytes on success, and a streaming (`io.Copy`) failure. -/
structure VerifyEnv where
  openErr : Option GoStr
  content : List Nat
  readErr : Option GoStr
  deriving DecidableEq

/-- `VerifyChecksum` from the unnamed installer source.  The digest
function (`crypto/sha256`) is a collaborator, injected as `sha`; the code
hex-encodes its output and compares with `strings.EqualFold`. -/
def VerifyChecksum (sha : List Nat → List Nat) (f : VerifyEnv) (expectedChecksum : GoStr) :
    Option GoStr :=
  match f.openErr with
  | some err => some (strB ("failed to open file: ") ++ err)
  | none =>
    match f.readErr with
    | some err => some (strB ("failed to calculate checksum: ") ++ err)
    | none =>
      let actualChecksum := hexEncode (sha f.content)
      if eqFold actualChecksum expectedChecksum = true then none
      else some (strB ("checksum mismatch: expected ") ++ expectedChecksum
        ++ strB (", got ") ++ actualChecksum)

/-- `DownloadInfo` (distributor.go); only the fields `InstallJDK` reads. -/
structure DownloadInfo where
  fileName : GoStr
  checksum : GoStr
  deriving DecidableEq

/-- Collaborator outcomes for one `InstallJDK` run.  `downloadErr` is the
result of the inner `DownloadFile` call, `zipFile` feeds the inner
`VerifyChecksum` call, `extractResult` is `ExtractZip`'s outcome,
`javaExeExists` is the `os.Stat` on `extracted\bin\java.exe`,
`finalExists` the `os.Stat` on the final path. -/
structure InstallEnv where
  isSystemWide : Bool
  distributor : GoStr
  version : GoStr
  info : DownloadInfo
  userHome : Except GoStr GoStr
  mkBaseErr : Option GoStr
  mkTempErr : Option GoStr
  downloadErr : Option GoStr
  zipFile : VerifyEnv
  extractResult : Except GoStr GoStr
  javaExeExists : Bool
  finalExists : Bool
  removeOldErr : Option GoStr
  renameErr : Option GoStr

/-- Externally visible steps of `InstallJDK`.  `tempCreated` is recorded
when `os.MkdirAll(tempDir)` succeeds (the point where
`defer os.RemoveAll(tempDir)` is registered); `removeTemp` when that
deferred removal runs. -/
inductive Ev where
  | mkBase | tempCreated | download | verify | extract | statJava
  | removeOld | renameFinal | removeTemp
  deriving DecidableEq

/-- The installation base directory chosen by `InstallJDK`:
`C:\Program Files\<distributor>` system-wide, else `<home>\.jv`. -/
def installBaseRes (e : InstallEnv) : Except GoStr GoStr :=
  if e.isSystemWide then
    Except.ok (filepathJoin (strB ("C:\\Program Files")) e.distributor)
  else
    match e.userHome with
    | Except.error err => Except.error (strB ("failed to get home directory: ") ++ err)
    | Except.ok hd => Except.ok (filepathJoin hd (strB (".jv")))

/-- `InstallJDK` from the unnamed installer source: make the base and temp
directories, download, verify the checksum, extract, check
`bin\java.exe`, remove a pre-existing final path, and rename the staged
tree into place.  `defer os.RemoveAll(tempDir)`, registered right after
the temp directory is created, is modelled by `Ev.removeTemp` ending the
trace of every return path reached after `Ev.tempCreated`.  The progress
spinners only wrap the calls and are elided. -/
def InstallJDK (sha : List Nat → List Nat) (e : InstallEnv) :
    Except GoStr GoStr × List Ev :=
  match installBaseRes e with
  | Except.error m => (Except.error m, [])
  | Except.ok installBase =>
    match e.mkBaseErr with
    | some err =>
      (Except.error (strB ("failed to create installation directory: ") ++ err), [Ev.mkBase])
    | none =>
      match e.mkTempErr with
      | some err =>
        (Except.error (strB ("failed to create temp directory: ") ++ err), [Ev.mkBase])
      | none =>
        match e.downloadErr with
        | some err =>
          (Except.error (strB ("download failed: ") ++ err),
            [Ev.mkBase, Ev.tempCreated, Ev.download, Ev.removeTemp])
        | none =>
          match VerifyChecksum sha e.zipFile e.info.checksum with
          | some cerr =>
            (Except.error (strB ("checksum verification failed: ") ++ cerr),
              [Ev.mkBase, Ev.tempCreated, Ev.download, Ev.verify, Ev.removeTemp])
          | none =>
            match e.extractResult with
            | Except.error err =>
              (Except.error (strB ("extraction failed: ") ++ err),
                [Ev.mkBase, Ev.tempCreated, Ev.download, Ev.verify, Ev.extract, Ev.removeTemp])
            | Except.ok _extractedPath =>
              if e.javaExeExists = false then
                (Except.error (strB ("invalid JDK structure: bin\\java.exe not found")),
                  [Ev.mkBase, Ev.tempCreated, Ev.download, Ev.verify, Ev.extract,
                    Ev.statJava, Ev.removeTemp])
              else
                let finalPath := filepathJoin installBase (strB ("jdk-") ++ e.version)
                if e.finalExists then
                  match e.removeOldErr with
                  | some err =>
                    (Except.error (strB ("failed to remove old installation: ") ++ err),
                      [Ev.mkBase, Ev.tempCreated, Ev.download, Ev.verify, Ev.extract,
                        Ev.statJava, Ev.removeOld, Ev.removeTemp])
                  | none =>
                    match e.renameErr with
                    | some err =>
                      (Except.error (strB ("failed to move JDK to final location: ") ++ err),
                        [Ev.mkBase, Ev.tempCreated, Ev.download, Ev.verify, Ev.extract,
                          Ev.statJava, Ev.removeOld, Ev.renameFinal, Ev.removeTemp])
                    | none =>
                      (Except.ok finalPath,
                        [Ev.mkBase, Ev.tempCreated, Ev.download, Ev.verify, Ev.extract,
                          Ev.statJava, Ev.removeOld, Ev.renameFinal, Ev.removeTemp])
                else
                  match e.renameErr with
                  | some err =>
                    (Except.error (strB ("failed to move JDK to final location: ") ++ err),
                      [Ev.mkBase, Ev.tempCreated, Ev.download, Ev.verify, Ev.extract,
                        Ev.statJava, Ev.renameFinal, Ev.removeTemp])
                  | none =>
                    (Except.ok finalPath,
                      [Ev.mkBase, Ev.tempCreated, Ev.download, Ev.verify, Ev.extract,
                        Ev.statJava, Ev.renameFinal, Ev.removeTemp])

/-! ### `RunMultiInstall` / `finalizeInstallation` (installer.go) -/

/-- `config.InstalledJDK`, the installed-package record. -/
structure InstalledJDK where
  version : GoStr
  path : GoStr
  distributor : GoStr
  installedAt : GoStr
  scope : GoStr
  deriving DecidableEq

/-- Environment of one `RunMultiInstall` run: the selected versions, the
outcome of `InstallVersion` per version, and the fixed scope,
distributor name and `time.Now()` timestamp. -/
structure MultiEnv where
  versions : List GoStr
  installResult : GoStr → Except GoStr GoStr
  scope : GoStr
  distributorName : GoStr
  now : GoStr

/-- `finalizeInstallation`'s record-writing loop (installer.go):
`for idx, path := range paths` builds a record from `path` and
`versions[idx]`.  Since `paths.length ≤ versions.length` at the call site,
the index pairing is exactly `paths.zip versions`.  (`AddCustomPath`,
`config.Save` and the console output do not touch the records.) -/
def finalizeInstallation (paths versions : List GoStr) (scope dist now : GoStr) :
    List InstalledJDK :=
  (paths.zip versions).map (fun pv =>
    { version := pv.2, path := pv.1, distributor := dist, installedAt := now, scope := scope })

/-- `RunMultiInstall` (installer.go): install each selected version,
collecting into `installedPaths` only the paths of the versions whose
`InstallVersion` succeeded (failures print and `continue`), then hand
`installedPaths` together with the full `versions` list to
`finalizeInstallation`.  The returned value is the list of
installed-package records written. -/
def RunMultiInstall (e : MultiEnv) : List InstalledJDK :=
  let installedPaths := e.versions.filterMap (fun v => (e.installResult v).toOption)
  finalizeInstallation installedPaths e.versions e.scope e.distributorName e.now

/-! ### `PerformUpdate` (internal/updater/updater.go) -/

/-- Collaborator outcomes for one `PerformUpdate` run: `os.Executable`,
the backup `copyFile`, `selfupdate.UpdateTo`, and the cause inside the
`*os.LinkError` returned by the rollback `os.Rename`. -/
structure UpdateEnv where
  exeErr : Option GoStr
  exePath : GoStr
  copyErr : Option GoStr
  updateErr : Option GoStr
  renameErr : Option GoStr

/-- `PerformUpdate` (updater.go): back up the executable to
`exe + ".backup"`, run `selfupdate.UpdateTo`, and on failure attempt
`os.Rename(backup, exe)`.  `os.Rename` always fails with a
`*os.LinkError`, whose message is `"rename <old> <new>: <cause>"`; the
`%v` in the combined error message renders exactly that.  The deferred
asynchronous backup cleanup on success has no effect on the result. -/
def PerformUpdate (e : UpdateEnv) : Option GoStr :=
  match e.exeErr with
  | some err => some (strB ("failed to determine executable path: ") ++ err)
  | none =>
    let exe := e.exePath
    let backup := exe ++ strB (".backup")
    match e.copyErr with
    | some err => some (strB ("failed to create backup: ") ++ err)
    | none =>
      match e.updateErr with
      | none => none
      | some uerr =>
        match e.renameErr with
        | none => some (strB ("update failed (rolled back): ") ++ uerr)
        | some rcause =>
          some (strB ("update failed and rollback failed: update error: ") ++ uerr
            ++ strB (", rollback error: ")
            ++ (strB ("rename ") ++ backup ++ strB (" ") ++ exe ++ strB (": ") ++ rcause))

/-! ### `GetAvailableVersions` (unnamed distributor source) and
`CheckForUpdate` (updater.go) -/

/-- `JavaRelease` (distributor.go); `OpenJDKVersion` is never set on this
path and is omitted. -/
structure JavaRelease where
  version : GoStr
  isLTS : Bool
  deriving DecidableEq

/-- `adoptiumReleasesResponse`: the parsed JSON body. -/
structure ReleasesResp where
  availableLTSReleases : List Int
  availableReleases : List Int
  mostRecentLTS : Int
  mostRecentFeatureRelease : Int

/-- Collaborator outcomes for one `GetAvailableVersions` run: `http.Get`
failure, the response status, `io.ReadAll` failure, and the
`json.Unmarshal` outcome (JSON decoding is a collaborator). -/
structure VersionsEnv where
  getErr : Option GoStr
  statusCode : Int
  readErr : Option GoStr
  parsed : Except GoStr ReleasesResp

/-- `getFallbackVersions`: the hardcoded fallback list. -/
def getFallbackVersions : List JavaRelease :=
  [⟨strB ("25"), true⟩, ⟨strB ("24"), false⟩, ⟨strB ("23"), false⟩, ⟨strB ("22"), false⟩,
   ⟨strB ("21"), true⟩, ⟨strB ("20"), false⟩, ⟨strB ("19"), false⟩, ⟨strB ("18"), false⟩,
   ⟨strB ("17"), true⟩, ⟨strB ("16"), false⟩, ⟨strB ("11"), true⟩, ⟨strB ("8"), true⟩]

/-- Go string `<` (lexicographic byte comparison). -/
def ltStr : GoStr → GoStr → Bool
  | [], [] => false
  | [], _ :: _ => true
  | _ :: _, [] => false
  | x :: xs, y :: ys => if x < y then true else if y < x then false else ltStr xs ys

/-- Insert into a list sorted descending by `Version >`. -/
def insertDesc (x : JavaRelease) : List JavaRelease → List JavaRelease
  | [] => [x]
  | y :: t => if ltStr y.version x.version then x :: y :: t else y :: insertDesc x t

/-- `sort.Slice(releases, releases[i].Version > releases[j].Version)`;
realised as an insertion sort (the relative order of equal keys is
unspecified by `sort.Slice` too). -/
def sortByVersionDesc (l : List JavaRelease) : List JavaRelease := l.foldr insertDesc []

/-- `GetAvailableVersions` (unnamed distributor source): on any request,
status, read or parse failure return the hardcoded fallback list together
with a non-nil error; on success build the releases from
`available_releases`, tagging LTS membership, sorted descending. -/
def GetAvailableVersions (e : VersionsEnv) : List JavaRelease × Option GoStr :=
  match e.getErr with
  | some err =>
    (getFallbackVersions, some (strB ("API request failed, using fallback versions: ") ++ err))
  | none =>
    if e.statusCode ≠ 200 then
      (getFallbackVersions,
        some (strB ("API returned status ") ++ intStr e.statusCode
          ++ strB (", using fallback versions")))
    else
      match e.readErr with
      | some err =>
        (getFallbackVersions,
          some (strB ("failed to read response, using fallback versions: ") ++ err))
      | none =>
        match e.parsed with
        | Except.error err =>
          (getFallbackVersions,
            some (strB ("failed to parse response, using fallback versions: ") ++ err))
        | Except.ok resp =>
          let releases := resp.availableReleases.map (fun v =>
            ({ version := intStr v, isLTS := resp.availableLTSReleases.contains v } : JavaRelease))
          (sortByVersionDesc releases, none)

/-- The latest release as `CheckForUpdate` sees it: its version string and
the outcome of the library's `release.LessOrEqual(currentVersion)`
comparison (semver comparison is the `go-selfupdate` collaborator). -/
structure LatestRelease where
  version : GoStr
  lessOrEqualCurrent : Bool
  deriving DecidableEq

/-- Environment of one `CheckForUpdate` run: `DetectLatest`'s outcome
(`Except.ok none` models `found = false`) and the configured
skipped-version marker.  The `LastCheck` bookkeeping write is a
non-fatal side effect with no bearing on the returned value. -/
structure CheckEnv where
  detect : Except GoStr (Option LatestRelease)
  skipVersion : GoStr

/-- `CheckForUpdate` (updater.go): a detection failure or an empty release
list is a hard error — no fallback; an up-to-date or skipped version
yields `ok none`. -/
def CheckForUpdate (e : CheckEnv) : Except GoStr (Option LatestRelease) :=
  match e.detect with
  | Except.error err => Except.error (strB ("failed to check for updates: ") ++ err)
  | Except.ok none => Except.error (strB ("no releases found"))
  | Except.ok (some latest) =>
    if latest.lessOrEqualCurrent then Except.ok none
    else if e.skipVersion = latest.version then Except.ok none
    else Except.ok (some latest)

/-! ## Helper lemmas -/

/-- Upper-casing is insensitive to prior lower-casing (ASCII). -/
theorem upB_lowB (c : Nat) : upB (lowB c) = upB c := by
  simp only [lowB, upB]
  by_cases h : 65 ≤ c ∧ c ≤ 90
  · rw [if_pos h, if_pos (by omega : 97 ≤ c + 32 ∧ c + 32 ≤ 122),
      if_neg (by omega : ¬(97 ≤ c ∧ c ≤ 122))]
    omega
  · rw [if_neg h]

theorem upStr_lowStr (l : GoStr) : upStr (lowStr l) = upStr l := by
  induction l with
  | nil => rfl
  | cons a t ih =>
    simp only [upStr, lowStr, List.map_cons] at ih ⊢
    rw [upB_lowB]
    exact congrArg _ ih

/-- Fold-equal strings have the same upper-casing. -/
theorem eqFold_upStr {a b : GoStr} (h : eqFold a b = true) : upStr a = upStr b := by
  have h' : lowStr a = lowStr b := by simpa [eqFold] using h
  calc upStr a = upStr (lowStr a) := (upStr_lowStr a).symm
    _ = upStr (lowStr b) := by rw [h']
    _ = upStr b := upStr_lowStr b

theorem isPreB_append : ∀ (a b : List Nat), a.isPrefixOf (a ++ b) = true
  | [], _ => by simp [List.isPrefixOf]
  | _ :: xs, b => by simp [List.isPrefixOf, isPreB_append xs b]

theorem strContains_nil_sub : ∀ s : GoStr, strContains s [] = true := by
  intro s
  cases s <;> simp [strContains, List.isPrefixOf]

/-- A contiguous occurrence makes `strContains` true. -/
theorem strContains_mid (b : GoStr) : ∀ (a c : GoStr), strContains (a ++ b ++ c) b = true := by
  intro a c
  induction a with
  | nil =>
    cases b with
    | nil => simpa using strContains_nil_sub c
    | cons x xs => simp [strContains, isPreB_append]
  | cons y ys ih =>
    simp only [List.cons_append]
    show (List.isPrefixOf b (y :: (ys ++ b ++ c)) || strContains (ys ++ b ++ c) b) = true
    rw [ih, Bool.or_true]

theorem strContains_infixP {m b : GoStr} (h : b <:+: m) : strContains m b = true := by
  obtain ⟨s, t, rfl⟩ := h
  exact strContains_mid b s t

theorem dropWhile_self (p : Nat → Bool) : ∀ l : List Nat,
    (l.dropWhile p).dropWhile p = l.dropWhile p
  | [] => rfl
  | c :: t => by
    by_cases h : p c = true
    · simp only [List.dropWhile_cons, h, if_true]
      exact dropWhile_self p t
    · simp only [List.dropWhile_cons, h, if_false]
      simp [List.dropWhile_cons, h]

theorem length_dropWhile_leB (p : Nat → Bool) : ∀ l : List Nat,
    (l.dropWhile p).length ≤ l.length
  | [] => Nat.le_refl 0
  | c :: t => by
    by_cases h : p c = true
    · simp only [List.dropWhile_cons, h, if_true]
      exact Nat.le_trans (length_dropWhile_leB p t) (Nat.le_succ _)
    · simp [List.dropWhile_cons, h]

/-- A trimmed string has no leading white space left to drop. -/
theorem trim_dropWhile (l : GoStr) : (trimSpace l).dropWhile isSpaceB = trimSpace l := by
  have hAd : (l.dropWhile isSpaceB).dropWhile isSpaceB = l.dropWhile isSpaceB :=
    dropWhile_self isSpaceB l
  have hsplit : l.dropWhile isSpaceB =
      ((l.dropWhile isSpaceB).reverse.dropWhile isSpaceB).reverse
        ++ ((l.dropWhile isSpaceB).reverse.takeWhile isSpaceB).reverse := by
    conv_lhs => rw [← List.reverse_reverse (l.dropWhile isSpaceB),
      ← List.takeWhile_append_dropWhile (p := isSpaceB) (l := (l.dropWhile isSpaceB).reverse)]
    rw [List.reverse_append]
  show ((l.dropWhile isSpaceB).reverse.dropWhile isSpaceB).reverse.dropWhile isSpaceB
      = ((l.dropWhile isSpaceB).reverse.dropWhile isSpaceB).reverse
  cases hX : ((l.dropWhile isSpaceB).reverse.dropWhile isSpaceB).reverse with
  | nil => simp
  | cons h t =>
    rw [hX] at hsplit
    by_cases hp : isSpaceB h = true
    · exfalso
      rw [List.cons_append] at hsplit
      have h1 := hAd
      rw [hsplit, List.dropWhile_cons_of_pos hp] at h1
      have h2 := length_dropWhile_leB isSpaceB
        (t ++ ((l.dropWhile isSpaceB).reverse.takeWhile isSpaceB).reverse)
      rw [h1] at h2
      simp at h2
    · rw [List.dropWhile_cons_of_neg (by simp [hp])]

/-- `strings.TrimSpace` is idempotent. -/
theorem trim_idem (l : GoStr) : trimSpace (trimSpace l) = trimSpace l := by
  have h1 : (trimSpace l).dropWhile isSpaceB = trimSpace l := trim_dropWhile l
  show (((trimSpace l).dropWhile isSpaceB).reverse.dropWhile isSpaceB).reverse = trimSpace l
  rw [h1]
  have h2 : (trimSpace l).reverse = (l.dropWhile isSpaceB).reverse.dropWhile isSpaceB := by
    unfold trimSpace
    rw [List.reverse_reverse]
  rw [h2, dropWhile_self, ← h2, List.reverse_reverse]

theorem mem_dropWhile {a : Nat} (p : Nat → Bool) : ∀ {l : List Nat}, a ∈ l.dropWhile p → a ∈ l
  | [], h => h
  | c :: t, h => by
    by_cases hp : p c = true
    · rw [List.dropWhile_cons_of_pos hp] at h
      exact List.mem_cons_of_mem _ (mem_dropWhile p h)
    · rwa [List.dropWhile_cons_of_neg (by simp [hp])] at h

theorem mem_trim {a : Nat} {l : GoStr} (h : a ∈ trimSpace l) : a ∈ l := by
  unfold trimSpace at h
  rw [List.mem_reverse] at h
  have h2 := mem_dropWhile isSpaceB h
  rw [List.mem_reverse] at h2
  exact mem_dropWhile isSpaceB h2

theorem splitSemi_ne_nil : ∀ l : GoStr, splitSemi l ≠ []
  | [] => by simp [splitSemi]
  | c :: t => by
    unfold splitSemi
    by_cases h : c = 59
    · simp [h]
    · simp only [if_neg h]
      cases splitSemi t <;> simp

/-- No segment produced by `strings.Split(s, ";")` contains a semicolon. -/
theorem noSemi_splitSemi : ∀ (l : GoStr), ∀ x ∈ splitSemi l, ¬ (59 ∈ x)
  | [], x, hx => by
    simp [splitSemi] at hx
    subst hx
    simp
  | c :: t, x, hx => by
    unfold splitSemi at hx
    by_cases h : c = 59
    · rw [if_pos h] at hx
      rcases List.mem_cons.mp hx with h1 | h1
      · subst h1; simp
      · exact noSemi_splitSemi t x h1
    · rw [if_neg h] at hx
      cases hs : splitSemi t with
      | nil => exact absurd hs (splitSemi_ne_nil t)
      | cons hh tt =>
        rw [hs] at hx
        rcases List.mem_cons.mp hx with h1 | h1
        · subst h1
          intro hmem
          rcases List.mem_cons.mp hmem with h2 | h2
          · exact h h2.symm
          · exact noSemi_splitSemi t hh (by rw [hs]; exact List.mem_cons_self _ _) h2
        · exact noSemi_splitSemi t x (by rw [hs]; exact List.mem_cons_of_mem _ h1)

theorem splitSemi_append : ∀ (x : GoStr), ¬ (59 ∈ x) → ∀ (r : GoStr) (h : GoStr) (t : List GoStr),
    splitSemi r = h :: t → splitSemi (x ++ r) = (x ++ h) :: t
  | [], _, r, h, t, hr => by simpa using hr
  | c :: xs, hx, r, h, t, hr => by
    have hc : ¬ (c = 59) := fun hc => hx (hc ▸ List.mem_cons_self _ _)
    have ih := splitSemi_append xs (fun hm => hx (List.mem_cons_of_mem _ hm)) r h t hr
    simp only [List.cons_append]
    unfold splitSemi
    rw [if_neg hc, ih]

/-- `strings.Split` is a left inverse of `strings.Join` on non-empty lists
of semicolon-free segments. -/
theorem splitSemi_joinSemi : ∀ (L : List GoStr), (∀ x ∈ L, ¬ (59 ∈ x)) → L ≠ [] →
    splitSemi (joinSemi L) = L
  | [], _, hne => absurd rfl hne
  | [x], h, _ => by
    have hx : ¬ (59 ∈ x) := h x (by simp)
    have := splitSemi_append x hx [] [] [] rfl
    simpa [joinSemi] using this
  | x :: y :: L, h, _ => by
    have hx : ¬ (59 ∈ x) := h x (by simp)
    have ih := splitSemi_joinSemi (y :: L) (fun z hz => h z (List.mem_cons_of_mem _ hz))
      (by simp)
    have h59 : splitSemi (59 :: joinSemi (y :: L)) = [] :: (y :: L) := by
      unfold splitSemi
      rw [if_pos rfl, ih]
    have := splitSemi_append x hx (59 :: joinSemi (y :: L)) [] (y :: L) h59
    simpa [joinSemi] using this

/-- The segment loop, restated through the keep predicate. -/
theorem seg_step (o : GoStr) (p0 : GoStr) :
    segStep o p0 = if keepSeg o (trimSpace p0) = true then some (trimSpace p0) else none := by
  simp only [segStep, keepSeg]
  by_cases h1 : trimSpace p0 = [] <;>
    by_cases h2 : o ≠ [] ∧ (eqFold (trimSpace p0) (filepathJoin o binStr) = true ∨
      eqFold (trimSpace p0) jhbStr = true) <;>
    by_cases h3 : o ≠ [] ∧ strContains (lowStr (trimSpace p0)) (lowStr o) = true <;>
    by_cases h4 : strContains (upStr (trimSpace p0)) ujhStr = true <;>
    simp [h1, h2, h3, h4]

theorem filterMap_segStep (o : GoStr) : ∀ (l : List GoStr),
    l.filterMap (segStep o) = (l.map trimSpace).filter (keepSeg o)
  | [] => rfl
  | p :: ps => by
    rw [List.filterMap_cons, seg_step o p]
    by_cases h : keepSeg o (trimSpace p) = true
    · simp [h, filterMap_segStep o ps, List.filter_cons]
    · simp [h, filterMap_segStep o ps, List.filter_cons]

/-- `updatePath` as prepend-to-kept-segments. -/
theorem updatePath_eq (L o n : GoStr) :
    updatePath L o n = joinSemi (jhbStr :: keptSegs o L) := by
  unfold updatePath keptSegs
  rw [filterMap_segStep]

theorem keepSeg_true_iff (o q : GoStr) : keepSeg o q = true ↔
    q ≠ [] ∧
    ¬(o ≠ [] ∧ (eqFold q (filepathJoin o binStr) = true ∨ eqFold q jhbStr = true)) ∧
    ¬(o ≠ [] ∧ strContains (lowStr q) (lowStr o) = true) ∧
    strContains (upStr q) ujhStr = false := by
  unfold keepSeg
  repeat' split <;> simp_all <;> tauto

/-- Members of the kept-segment list are trimmed versions of input
segments that the keep predicate accepts. -/
theorem mem_keptSegs {q o L : GoStr} (h : q ∈ keptSegs o L) :
    keepSeg o q = true ∧ ∃ p ∈ splitSemi L, q = trimSpace p := by
  refine ⟨List.of_mem_filter h, ?_⟩
  have h2 : q ∈ (splitSemi L).map trimSpace := List.mem_of_mem_filter h
  obtain ⟨p, hp, hq⟩ := List.mem_map.mp h2
  exact ⟨p, hp, hq.symm⟩

theorem noSemi_keptSegs {q o L : GoStr} (h : q ∈ keptSegs o L) : ¬ (59 ∈ q) := by
  obtain ⟨-, p, hp, rfl⟩ := mem_keptSegs h
  intro hmem
  exact noSemi_splitSemi L p hp (mem_trim hmem)

/-- Splitting the rewritten PATH recovers the prepended reference and the
kept segments. -/
theorem splitSemi_updatePath (L o n : GoStr) :
    splitSemi (updatePath L o n) = jhbStr :: keptSegs o L := by
  rw [updatePath_eq]
  apply splitSemi_joinSemi
  · intro x hx
    rcases List.mem_cons.mp hx with h | h
    · subst h; decide
    · exact noSemi_keptSegs h
  · simp

theorem keepSeg_jhb (o : GoStr) : keepSeg o jhbStr = false := by
  by_cases ho : o = []
  · subst ho; decide
  · unfold keepSeg
    rw [if_neg (by decide : ¬(jhbStr = [])),
      if_pos ⟨ho, Or.inr (by decide : eqFold jhbStr jhbStr = true)⟩]

theorem trim_keptSegs {q o L : GoStr} (h : q ∈ keptSegs o L) : trimSpace q = q := by
  obtain ⟨-, p, hp, rfl⟩ := mem_keptSegs h
  exact trim_idem p

/-- Every PATH produced by `updatePath` has exactly one `%JAVA_HOME%`
segment. -/
theorem countRefs_updatePath (L o n : GoStr) : countRefs (updatePath L o n) = 1 := by
  unfold countRefs
  rw [splitSemi_updatePath L o n, List.filter_cons,
    if_pos (by decide : strContains (upStr jhbStr) ujhStr = true)]
  have hK : (keptSegs o L).filter (fun q => strContains (upStr q) ujhStr) = [] := by
    rw [List.filter_eq_nil_iff]
    intro q hq
    have hkeep := (keepSeg_true_iff o q).mp (mem_keptSegs hq).1
    simp [hkeep.2.2.2]
  rw [hK]
  rfl

/-- Second application of the rewrite with old home `h` keeps a segment
the first application kept, provided the segment neither fold-equals
`h\bin` nor contains `h` case-insensitively. -/
theorem keepSeg_second {o hN q : GoStr} (hk : keepSeg o q = true)
    (h1 : eqFold q (filepathJoin hN binStr) = false)
    (h2 : strContains (lowStr q) (lowStr hN) = false) :
    keepSeg hN q = true := by
  have hspec := (keepSeg_true_iff o q).mp hk
  refine (keepSeg_true_iff hN q).mpr ⟨hspec.1, ?_, ?_, hspec.2.2.2⟩
  · rintro ⟨-, hor | hor⟩
    · rw [h1] at hor; exact Bool.false_ne_true hor
    · have hup := eqFold_upStr hor
      have : strContains (upStr q) ujhStr = true := by
        rw [hup]; decide
      rw [hspec.2.2.2] at this
      exact Bool.false_ne_true this
  · rintro ⟨-, hc⟩
    rw [h2] at hc
    exact Bool.false_ne_true hc

/-- Conditional stability: re-running the rewrite with the same new home
changes nothing when no trimmed input segment fold-equals the new home's
`bin` folder or contains the new home case-insensitively. -/
theorem updatePath_stable (L o hN : GoStr)
    (hyp : ∀ p ∈ splitSemi L, eqFold (trimSpace p) (filepathJoin hN binStr) = false ∧
      strContains (lowStr (trimSpace p)) (lowStr hN) = false) :
    updatePath (updatePath L o hN) hN hN = updatePath L o hN := by
  have hmapK : (keptSegs o L).map trimSpace = keptSegs o L := by
    have h0 : (keptSegs o L).map trimSpace = (keptSegs o L).map id :=
      List.map_congr_left (fun q hq => trim_keptSegs hq)
    rw [h0, List.map_id]
  have hall : ∀ q ∈ keptSegs o L, keepSeg hN q = true := by
    intro q hq
    obtain ⟨hk, p, hp, hq2⟩ := mem_keptSegs hq
    exact keepSeg_second hk (hq2 ▸ (hyp p hp).1) (hq2 ▸ (hyp p hp).2)
  have hmain : keptSegs hN (updatePath L o hN) = keptSegs o L := by
    show ((splitSemi (updatePath L o hN)).map trimSpace).filter (keepSeg hN) = keptSegs o L
    rw [splitSemi_updatePath L o hN, List.map_cons,
      (by decide : trimSpace jhbStr = jhbStr), hmapK,
      List.filter_cons, if_neg (by simp [keepSeg_jhb])]
    exact List.filter_eq_self.mpr hall
  conv_lhs => rw [updatePath_eq, hmain]
  rw [updatePath_eq L o hN]

/-! ## Claim theorems -/

/-- Claim C1, counterexample: applying the PATH rewrite twice with the
same new home is not always the same as applying it once.  With
L = `C:\Y\tools`, H_old = `C:\X`, H = `C:\Y`, the first rewrite keeps
`C:\Y\tools` (it does not mention the old home), but the second rewrite
drops it because it contains the new home `C:\Y` case-insensitively. -/
theorem c1_counterexample :
    updatePath (updatePath (strB ("C:\\Y\\tools")) (strB ("C:\\X")) (strB ("C:\\Y")))
        (strB ("C:\\Y")) (strB ("C:\\Y"))
      ≠ updatePath (strB ("C:\\Y\\tools")) (strB ("C:\\X")) (strB ("C:\\Y")) := by
  decide

/-- Claim C1, amended: the twice-rewritten list always contains exactly
one `%JAVA_HOME%\bin` reference, and it equals the once-rewritten list
provided no trimmed segment of the input fold-equals the new home's `bin`
folder or contains the new home case-insensitively (without that proviso
the equality can fail, see the counterexample). -/
theorem c1_amended (L oldHome newHome : GoStr) :
    countRefs (updatePath (updatePath L oldHome newHome) newHome newHome) = 1 ∧
    ((∀ p ∈ splitSemi L,
        eqFold (trimSpace p) (filepathJoin newHome binStr) = false ∧
        strContains (lowStr (trimSpace p)) (lowStr newHome) = false) →
      updatePath (updatePath L oldHome newHome) newHome newHome
        = updatePath L oldHome newHome) :=
  ⟨countRefs_updatePath _ _ _, fun hyp => updatePath_stable L oldHome newHome hyp⟩

/-- Witness for the amended C1 at L = `OTHER`, H_old = `C:\X`,
H = `C:\Y`. -/
theorem c1_amended_witness :
    countRefs (updatePath (updatePath (strB ("OTHER")) (strB ("C:\\X")) (strB ("C:\\Y")))
      (strB ("C:\\Y")) (strB ("C:\\Y"))) = 1 ∧
    updatePath (updatePath (strB ("OTHER")) (strB ("C:\\X")) (strB ("C:\\Y")))
        (strB ("C:\\Y")) (strB ("C:\\Y"))
      = updatePath (strB ("OTHER")) (strB ("C:\\X")) (strB ("C:\\Y")) := by
  have h := c1_amended (strB ("OTHER")) (strB ("C:\\X")) (strB ("C:\\Y"))
  exact ⟨h.1, h.2 (by decide)⟩

/-- Claim C2: in a multi-version install where version `17` fails and
version `21` succeeds at path `...\jdk-21`, the code writes exactly one
installed-package record, and that record pairs the FAILED version `17`
with the path of `21` — `finalizeInstallation` zips the filtered
success-path list against the unfiltered version list.  This contradicts
the spec's "record only after the pipeline fully succeeds, never
partially written" contract. -/
theorem c2_record_misaligned :
    RunMultiInstall
        { versions := [strB ("17"), strB ("21")],
          installResult := fun v =>
            if v = strB ("17") then Except.error (strB ("installation failed: boom"))
            else Except.ok (strB ("C:\\Program Files\\Eclipse Adoptium\\jdk-21")),
          scope := strB ("system"), distributorName := strB ("Eclipse Adoptium"),
          now := strB ("2026-10-11T00:00:00Z") } =
      [{ version := strB ("17"), path := strB ("C:\\Program Files\\Eclipse Adoptium\\jdk-21"),
         distributor := strB ("Eclipse Adoptium"),
         installedAt := strB ("2026-10-11T00:00:00Z"), scope := strB ("system") }] ∧
    strB ("17") ≠ strB ("21") := by
  constructor
  · decide
  · decide

/-- Claim C3: after a successful backup, a failed replacement is rolled
back; a successful rollback yields the "update failed (rolled back)"
error, and a failed rollback yields an error carrying the update error,
the rollback error and the backup's location (`<exe>.backup`, embedded in
the `os.Rename` link-error text). -/
theorem c3_rollback_reporting (e : UpdateEnv) (uerr : GoStr)
    (h1 : e.exeErr = none) (h2 : e.copyErr = none) (h3 : e.updateErr = some uerr) :
    (e.renameErr = none →
      PerformUpdate e = some (strB ("update failed (rolled back): ") ++ uerr)) ∧
    (∀ rc, e.renameErr = some rc →
      ∃ m, PerformUpdate e = some m ∧
        strContains m uerr = true ∧
        strContains m rc = true ∧
        strContains m (e.exePath ++ strB (".backup")) = true) := by
  constructor
  · intro hr
    simp [PerformUpdate, h1, h2, h3, hr]
  · intro rc hr
    have hm : PerformUpdate e =
        some (strB ("update failed and rollback failed: update error: ") ++ uerr
          ++ strB (", rollback error: ")
          ++ (strB ("rename ") ++ (e.exePath ++ strB (".backup")) ++ strB (" ")
            ++ e.exePath ++ strB (": ") ++ rc)) := by
      simp [PerformUpdate, h1, h2, h3, hr]
    refine ⟨_, hm, ?_, ?_, ?_⟩
    · exact strContains_infixP
        ⟨strB ("update failed and rollback failed: update error: "),
         strB (", rollback error: ") ++ (strB ("rename ") ++ (e.exePath ++ strB (".backup"))
           ++ strB (" ") ++ e.exePath ++ strB (": ") ++ rc),
         by simp [List.append_assoc]⟩
    · exact strContains_infixP
        ⟨strB ("update failed and rollback failed: update error: ") ++ uerr
           ++ strB (", rollback error: ") ++ strB ("rename ") ++ (e.exePath ++ strB (".backup"))
           ++ strB (" ") ++ e.exePath ++ strB (": "),
         [],
         by simp [List.append_assoc]⟩
    · exact strContains_infixP
        ⟨strB ("update failed and rollback failed: update error: ") ++ uerr
           ++ strB (", rollback error: ") ++ strB ("rename "),
         strB (" ") ++ e.exePath ++ strB (": ") ++ rc,
         by simp [List.append_assoc]⟩

/-- Witness for C3: a concrete run whose replacement and rollback both
fail; the reported error contains both causes and the backup path. -/
theorem c3_witness :
    ∃ m, PerformUpdate
        { exeErr := none, exePath := strB ("C:\\bin\\jv.exe"), copyErr := none,
          updateErr := some (strB ("boom")), renameErr := some (strB ("access denied")) }
        = some m ∧
      strContains m (strB ("boom")) = true ∧
      strContains m (strB ("access denied")) = true ∧
      strContains m (strB ("C:\\bin\\jv.exe") ++ strB (".backup")) = true :=
  (c3_rollback_reporting _ _ rfl rfl rfl).2 _ rfl

/-- Claim C4: on a readable file, `VerifyChecksum` succeeds exactly when
the hex-encoded digest fold-equals the expected digest; and on a mismatch
`InstallJDK` (having reached the verification step) returns the wrapped
mismatch error without ever invoking extraction. -/
theorem c4_checksum_gate (sha : List Nat → List Nat) (f : VerifyEnv) (expected : GoStr)
    (h1 : f.openErr = none) (h2 : f.readErr = none) :
    (VerifyChecksum sha f expected = none ↔
      eqFold (hexEncode (sha f.content)) expected = true) ∧
    (∀ e : InstallEnv, e.zipFile = f → e.info.checksum = expected →
      e.isSystemWide = true → e.mkBaseErr = none → e.mkTempErr = none → e.downloadErr = none →
      eqFold (hexEncode (sha f.content)) expected = false →
      (InstallJDK sha e).1 = Except.error (strB ("checksum verification failed: ")
          ++ (strB ("checksum mismatch: expected ") ++ expected
            ++ strB (", got ") ++ hexEncode (sha f.content))) ∧
      Ev.extract ∉ (InstallJDK sha e).2) := by
  have hv : ∀ exp2, VerifyChecksum sha f exp2 =
      (if eqFold (hexEncode (sha f.content)) exp2 = true then none
       else some (strB ("checksum mismatch: expected ") ++ exp2
         ++ strB (", got ") ++ hexEncode (sha f.content))) := by
    intro exp2
    simp [VerifyChecksum, h1, h2]
  constructor
  · rw [hv]
    by_cases h : eqFold (hexEncode (sha f.content)) expected = true <;> simp [h]
  · intro e hz hc hsw hmb hmt hdl hmis
    have hvc : VerifyChecksum sha e.zipFile e.info.checksum =
        some (strB ("checksum mismatch: expected ") ++ expected
          ++ strB (", got ") ++ hexEncode (sha f.content)) := by
      rw [hz, hc, hv, if_neg (by simp [hmis])]
    constructor
    · simp [InstallJDK, installBaseRes, hsw, hmb, hmt, hdl, hvc]
    · simp [InstallJDK, installBaseRes, hsw, hmb, hmt, hdl, hvc]

/-- Witness for C4: a digest stub returning byte 0, so the actual hex
digest `00` mismatches the expected `ff`; `InstallJDK` returns the
checksum error and its trace has no extraction step. -/
theorem c4_witness :
    (InstallJDK (fun _ => [0])
        { isSystemWide := true, distributor := strB ("Eclipse Adoptium"),
          version := strB ("21"), info := { fileName := strB ("f.zip"), checksum := strB ("ff") },
          userHome := Except.ok (strB ("C:\\U")), mkBaseErr := none, mkTempErr := none,
          downloadErr := none, zipFile := { openErr := none, content := [], readErr := none },
          extractResult := Except.ok (strB ("X")), javaExeExists := true, finalExists := false,
          removeOldErr := none, renameErr := none }).1
      = Except.error (strB ("checksum verification failed: ")
          ++ (strB ("checksum mismatch: expected ") ++ strB ("ff")
            ++ strB (", got ") ++ hexEncode ((fun _ => [0]) ([] : List Nat)))) ∧
    Ev.extract ∉ (InstallJDK (fun _ => [0])
        { isSystemWide := true, distributor := strB ("Eclipse Adoptium"),
          version := strB ("21"), info := { fileName := strB ("f.zip"), checksum := strB ("ff") },
          userHome := Except.ok (strB ("C:\\U")), mkBaseErr := none, mkTempErr := none,
          downloadErr := none, zipFile := { openErr := none, content := [], readErr := none },
          extractResult := Except.ok (strB ("X")), javaExeExists := true, finalExists := false,
          removeOldErr := none, renameErr := none }).2 :=
  (c4_checksum_gate (fun _ => [0]) { openErr := none, content := [], readErr := none }
      (strB ("ff")) rfl rfl).2 _ rfl rfl rfl rfl rfl rfl (by decide)

/-- Claim C5: when create, request, status and streaming all succeed but
the bytes written differ from the declared content length, `DownloadFile`
returns the incomplete-download error. -/
theorem c5_incomplete_transfer (e : DownloadEnv)
    (h1 : e.createErr = none) (h2 : e.getErr = none) (h3 : e.statusCode = 200)
    (h4 : e.copyErr = none) (h5 : (e.bodyBytes.length : Int) ≠ e.contentLength) :
    (DownloadFile e).res = some (strB ("incomplete download: got ")
      ++ intStr (e.bodyBytes.length) ++ strB (" bytes, expected ") ++ intStr e.contentLength) := by
  simp [DownloadFile, h1, h2, h3, h4, h5]

/-- Witness for C5: 3 bytes received against a declared length of 10. -/
theorem c5_witness :
    (DownloadFile
      { preFile := none, createErr := none, getErr := none, statusCode := 200,
        contentLength := 10, bodyBytes := [1, 2, 3], copyErr := none }).res =
      some (strB ("incomplete download: got ") ++ intStr (([1, 2, 3] : List Nat).length)
        ++ strB (" bytes, expected ") ++ intStr 10) :=
  c5_incomplete_transfer _ rfl rfl rfl rfl (by decide)

/-- Claim C6, counterexample: `os.Create` is a truncating create, not an
exclusive one.  With a pre-existing destination file holding byte 7 and a
request that fails to start, the run truncates the pre-existing file and
leaves an empty destination file behind — under exclusive creation the
pre-existing contents would have survived, and the claim says no
half-initialized destination file is left. -/
theorem c6_counterexample :
    (DownloadFile
      { preFile := some [7], createErr := none,
        getErr := some (strB ("connection refused")), statusCode := 0, contentLength := 0,
        bodyBytes := [], copyErr := none }).dest = some [] ∧
    (DownloadFile
      { preFile := some [7], createErr := none,
        getErr := some (strB ("connection refused")), statusCode := 0, contentLength := 0,
        bodyBytes := [], copyErr := none }).dest ≠ some [7] ∧
    (DownloadFile
      { preFile := some [7], createErr := none,
        getErr := some (strB ("connection refused")), statusCode := 0, contentLength := 0,
        bodyBytes := [], copyErr := none }).res ≠ none := by
  decide

/-- Claim C6, amended: `DownloadFile` creates (or truncates) the
destination file before issuing the network request — the create effect
always comes first in the trace — and a request that fails to start
returns the error while leaving behind an empty destination file. -/
theorem c6_amended (e : DownloadEnv) (err : GoStr)
    (h1 : e.createErr = none) (h2 : e.getErr = some err) :
    (DownloadFile e).trace = [DlEv.create, DlEv.httpGet] ∧
    (DownloadFile e).res = some (strB ("failed to download: ") ++ err) ∧
    (DownloadFile e).dest = some [] ∧
    (∀ f : DownloadEnv, (DownloadFile f).trace.head? = some DlEv.create) := by
  refine ⟨by simp [DownloadFile, h1, h2], by simp [DownloadFile, h1, h2],
    by simp [DownloadFile, h1, h2], ?_⟩
  intro f
  cases hc : f.createErr with
  | some err => simp [DownloadFile, hc]
  | none =>
    cases hg : f.getErr with
    | some err => simp [DownloadFile, hc, hg]
    | none =>
      by_cases hst : f.statusCode = 200
      · cases hcp : f.copyErr with
        | some err => simp [DownloadFile, hc, hg, hst, hcp]
        | none =>
          by_cases hlen : (f.bodyBytes.length : Int) = f.contentLength
          · simp [DownloadFile, hc, hg, hst, hcp, hlen]
          · simp [DownloadFile, hc, hg, hst, hcp, hlen]
      · simp [DownloadFile, hc, hg, hst]

/-- Witness for the amended C6. -/
theorem c6_witness :
    (DownloadFile
      { preFile := none, createErr := none, getErr := some (strB ("refused")),
        statusCode := 0, contentLength := 0, bodyBytes := [], copyErr := none }).trace
      = [DlEv.create, DlEv.httpGet] ∧
    (DownloadFile
      { preFile := none, createErr := none, getErr := some (strB ("refused")),
        statusCode := 0, contentLength := 0, bodyBytes := [], copyErr := none }).res
      = some (strB ("failed to download: ") ++ strB ("refused")) ∧
    (DownloadFile
      { preFile := none, createErr := none, getErr := some (strB ("refused")),
        statusCode := 0, contentLength := 0, bodyBytes := [], copyErr := none }).dest
      = some [] ∧
    (∀ f : DownloadEnv, (DownloadFile f).trace.head? = some DlEv.create) :=
  c6_amended _ _ rfl rfl

/-- Claim C7: with a non-empty old home, every segment surviving the
rewrite is either the prepended `%JAVA_HOME%\bin` reference or fails all
three drop tests (fold-equality with the old home's `bin` folder,
case-insensitive containment of the old home, `%JAVA_HOME%` in any
casing); and the concrete example drops `C:\X\bin` whatever its casing. -/
theorem c7_case_insensitive_removal (L o n : GoStr) (ho : o ≠ []) :
    (∀ q ∈ splitSemi (updatePath L o n),
      q = jhbStr ∨ (eqFold q (filepathJoin o binStr) = false ∧
        strContains (lowStr q) (lowStr o) = false ∧
        strContains (upStr q) ujhStr = false)) ∧
    updatePath (strB ("C:\\X\\bin;OTHER")) (strB ("C:\\X")) (strB ("C:\\Y"))
      = strB ("%JAVA_HOME%\\bin;OTHER") ∧
    updatePath (strB ("c:\\x\\BIN;OTHER")) (strB ("C:\\X")) (strB ("C:\\Y"))
      = strB ("%JAVA_HOME%\\bin;OTHER") := by
  refine ⟨?_, by decide, by decide⟩
  intro q hq
  rw [splitSemi_updatePath] at hq
  rcases List.mem_cons.mp hq with h | h
  · exact Or.inl h
  · right
    have hspec := (keepSeg_true_iff o q).mp (mem_keptSegs h).1
    refine ⟨?_, ?_, hspec.2.2.2⟩
    · by_cases he : eqFold q (filepathJoin o binStr) = true
      · exact absurd ⟨ho, Or.inl he⟩ hspec.2.1
      · exact Bool.eq_false_iff.mpr he
    · by_cases hc : strContains (lowStr q) (lowStr o) = true
      · exact absurd ⟨ho, hc⟩ hspec.2.2.1
      · exact Bool.eq_false_iff.mpr hc

/-- Witness for C7: instantiated at the concrete example, specialised to
the surviving segment `OTHER`. -/
theorem c7_witness :
    strB ("OTHER") = jhbStr ∨
      (eqFold (strB ("OTHER")) (filepathJoin (strB ("C:\\X")) binStr) = false ∧
        strContains (lowStr (strB ("OTHER"))) (lowStr (strB ("C:\\X"))) = false ∧
        strContains (upStr (strB ("OTHER"))) ujhStr = false) :=
  (c7_case_insensitive_removal (strB ("C:\\X\\bin;OTHER")) (strB ("C:\\X")) (strB ("C:\\Y"))
      (by decide)).1 (strB ("OTHER")) (by decide)

/-- Claim C9: the rewritten PATH always starts with `%JAVA_HOME%\bin`,
its remaining segments are non-empty, whitespace-trimmed, and are a
subsequence (same relative order) of the trimmed input segments. -/
theorem c9_shape (L o n : GoStr) :
    (splitSemi (updatePath L o n)).head? = some jhbStr ∧
    (∀ q ∈ (splitSemi (updatePath L o n)).tail, q ≠ [] ∧ trimSpace q = q) ∧
    ((splitSemi (updatePath L o n)).tail).Sublist ((splitSemi L).map trimSpace) := by
  rw [splitSemi_updatePath]
  refine ⟨rfl, ?_, ?_⟩
  · intro q hq
    simp only [List.tail_cons] at hq
    exact ⟨((keepSeg_true_iff o q).mp (mem_keptSegs hq).1).1, trim_keptSegs hq⟩
  · simp only [List.tail_cons]
    show List.Sublist (((splitSemi L).map trimSpace).filter (keepSeg o))
      ((splitSemi L).map trimSpace)
    exact List.filter_sublist _

/-- Witness for C9: instantiated at a PATH with blank and padded
segments. -/
theorem c9_witness :
    (splitSemi (updatePath (strB ("  A ;;B")) (strB ("C:\\X")) (strB ("C:\\Y")))).head?
      = some jhbStr :=
  (c9_shape (strB ("  A ;;B")) (strB ("C:\\X")) (strB ("C:\\Y"))).1

/-- Claim C8: any request/status/read/parse failure during package
discovery degrades to the hardcoded fallback list (with a warning error),
while a detection failure in the self-update check is a hard error with
no fallback. -/
theorem c8_fallback_vs_hard_error (ve : VersionsEnv) (ce : CheckEnv) :
    ((ve.getErr ≠ none ∨ ve.statusCode ≠ 200 ∨ ve.readErr ≠ none ∨ exOk ve.parsed = false) →
      (GetAvailableVersions ve).1 = getFallbackVersions ∧
        (GetAvailableVersions ve).2 ≠ none) ∧
    (∀ derr, ce.detect = Except.error derr →
      CheckForUpdate ce = Except.error (strB ("failed to check for updates: ") ++ derr)) := by
  constructor
  · intro hfail
    cases hget : ve.getErr with
    | some err => simp [GetAvailableVersions, hget]
    | none =>
      by_cases hst : ve.statusCode = 200
      · cases hread : ve.readErr with
        | some err => simp [GetAvailableVersions, hget, hst, hread]
        | none =>
          cases hp : ve.parsed with
          | error err => simp [GetAvailableVersions, hget, hst, hread, hp]
          | ok resp =>
            exfalso
            rcases hfail with h | h | h | h
            · exact h hget
            · exact h hst
            · exact h hread
            · rw [hp] at h
              simp [exOk] at h
      · simp [GetAvailableVersions, hget, hst]
  · intro derr hd
    simp [CheckForUpdate, hd]

/-- Witness for C8: a timed-out discovery request falls back; a failed
release detection is a hard error. -/
theorem c8_witness :
    ((GetAvailableVersions
        { getErr := some (strB ("timeout")), statusCode := 0,
          readErr := none, parsed := Except.error (strB ("x")) }).1 = getFallbackVersions ∧
      (GetAvailableVersions
        { getErr := some (strB ("timeout")), statusCode := 0,
          readErr := none, parsed := Except.error (strB ("x")) }).2 ≠ none) ∧
    CheckForUpdate { detect := Except.error (strB ("y")), skipVersion := [] }
      = Except.error (strB ("failed to check for updates: ") ++ strB ("y")) :=
  ⟨(c8_fallback_vs_hard_error
      { getErr := some (strB ("timeout")), statusCode := 0, readErr := none,
        parsed := Except.error (strB ("x")) }
      { detect := Except.error (strB ("y")), skipVersion := [] }).1 (Or.inl (by decide)),
   (c8_fallback_vs_hard_error
      { getErr := some (strB ("timeout")), statusCode := 0, readErr := none,
        parsed := Except.error (strB ("x")) }
      { detect := Except.error (strB ("y")), skipVersion := [] }).2 _ rfl⟩

/-- Claim C10: the temp staging directory is removed on every return path
that created it — `removeTemp` is in the trace exactly when `tempCreated`
is — and no staging write (download, extraction) ever happens without the
staging directory having been created. -/
theorem c10_staging_cleanup (sha : List Nat → List Nat) (e : InstallEnv) :
    (Ev.tempCreated ∈ (InstallJDK sha e).2 ↔ Ev.removeTemp ∈ (InstallJDK sha e).2) ∧
    (Ev.download ∈ (InstallJDK sha e).2 → Ev.tempCreated ∈ (InstallJDK sha e).2) ∧
    (Ev.extract ∈ (InstallJDK sha e).2 → Ev.tempCreated ∈ (InstallJDK sha e).2) := by
  unfold InstallJDK
  cases hbase : installBaseRes e with
  | error m => simp
  | ok b =>
    cases hmb : e.mkBaseErr with
    | some err => simp
    | none =>
      cases hmt : e.mkTempErr with
      | some err => simp
      | none =>
        cases hdl : e.downloadErr with
        | some err => simp
        | none =>
          cases hv : VerifyChecksum sha e.zipFile e.info.checksum with
          | some cerr => simp
          | none =>
            cases hex : e.extractResult with
            | error err => simp
            | ok p =>
              cases hj : e.javaExeExists with
              | false => simp
              | true =>
                cases hf : e.finalExists with
                | true =>
                  cases hro : e.removeOldErr with
                  | some err => simp
                  | none => cases hrn : e.renameErr <;> simp
                | false => cases hrn : e.renameErr <;> simp

/-- Witness for C10: a fully successful run removes the staging
directory. -/
theorem c10_witness :
    Ev.removeTemp ∈ (InstallJDK (fun _ => [])
        { isSystemWide := true, distributor := strB ("Eclipse Adoptium"),
          version := strB ("21"), info := { fileName := strB ("f.zip"), checksum := [] },
          userHome := Except.ok (strB ("C:\\U")), mkBaseErr := none, mkTempErr := none,
          downloadErr := none, zipFile := { openErr := none, content := [], readErr := none },
          extractResult := Except.ok (strB ("X")), javaExeExists := true, finalExists := false,
          removeOldErr := none, renameErr := none }).2 :=
  (c10_staging_cleanup (fun _ => [])
      { isSystemWide := true, distributor := strB ("Eclipse Adoptium"),
        version := strB ("21"), info := { fileName := strB ("f.zip"), checksum := [] },
        userHome := Except.ok (strB ("C:\\U")), mkBaseErr := none, mkTempErr := none,
        downloadErr := none, zipFile := { openErr := none, content := [], readErr := none },
        extractResult := Except.ok (strB ("X")), javaExeExists := true, finalExists := false,
        removeOldErr := none, renameErr := none }).1.mp (by decide)

end JV
